import Mathlib

/-
Shallow embedding of the mailing lifecycle and dispatch engine of the
Message_AutoSend repository (src/mailings/models.py, src/mailings/services.py,
src/mailings/tasks.py, src/mailings/forms.py).

Times are modelled as integers (a timezone-aware datetime is a point on a
totally ordered timeline; only comparisons and subtraction of a fixed
interval occur in the embedded code).  Database rows written by a run are
collected in an explicit event list; the injected clock (timezone.now) is a
parameter `now`; the mail transport (django.core.mail.send_mail) is a
parameter mapping a recipient address to its outcome.
-/

namespace MessageAutoSend

/-- Statuses of a mailing, src/mailings/models.py MailingStatus
(values are the Russian display strings; we use the symbolic names). -/
inductive MailingStatus
  | CREATED
  | RUNNING
  | FINISHED
deriving DecidableEq, Repr

/-- Recipient reference data, src/clients/models.py: only the fields read by
the dispatch engine (email may be empty, mirroring a falsy value). -/
structure Recipient where
  email : String
  name : String
deriving DecidableEq, Repr

/-- Mailing, src/mailings/models.py class Mailing: the fields the embedded
logic reads or writes.  start_at and end_at are non-nullable DateTimeFields,
last_sent_at is nullable. -/
structure Mailing where
  start_at : Int
  end_at : Int
  status : MailingStatus
  last_sent_at : Option Int
  recipients : List Recipient
deriving DecidableEq, Repr

/-- Property Mailing.is_sent_at_least_once: true iff last_sent_at is set. -/
def Mailing.is_sent_at_least_once (m : Mailing) : Bool :=
  m.last_sent_at.isSome

/-- Mailing.compute_status (models.py lines 176-185): status at time now,
without saving.  The Python truthiness guards on start_at/end_at are
vacuous for a mailing with its non-nullable datetime fields populated
(a datetime object is always truthy). -/
def Mailing.compute_status (now : Int) (m : Mailing) : MailingStatus :=
  if now ≥ m.end_at then
    MailingStatus.FINISHED
  else if m.is_sent_at_least_once = true ∨ (m.start_at ≤ now ∧ now < m.end_at) then
    MailingStatus.RUNNING
  else
    MailingStatus.CREATED

/-- Mailing.refresh_status (models.py lines 187-193) with save=True:
recompute the status and persist it when changed (the returned mailing is
the persisted row; when the status is unchanged the row is identical). -/
def Mailing.refresh_status (now : Int) (m : Mailing) : Mailing :=
  { m with status := m.compute_status now }

/-- C1: Mailing.compute_status implements the three-way cascade: FINISHED iff
now >= end_at; RUNNING iff not finished and (ever sent or start_at <= now <
end_at); CREATED otherwise — and the three cases are mutually exclusive and
exhaustive by construction. -/
theorem compute_status_cascade (now : Int) (m : Mailing) :
    (m.compute_status now = MailingStatus.FINISHED ↔ now ≥ m.end_at) ∧
    (m.compute_status now = MailingStatus.RUNNING ↔
      now < m.end_at ∧ (m.last_sent_at ≠ none ∨ (m.start_at ≤ now ∧ now < m.end_at))) ∧
    (m.compute_status now = MailingStatus.CREATED ↔
      now < m.end_at ∧ m.last_sent_at = none ∧ ¬ (m.start_at ≤ now ∧ now < m.end_at)) := by
  unfold Mailing.compute_status
  unfold Mailing.is_sent_at_least_once
  rcases h : m.last_sent_at with _ | t <;>
    split_ifs with h1 h2 <;>
      simp_all

/-! Dispatch engine, src/mailings/services.py. -/

/-- Outcome of one call of django.core.mail.send_mail for a single recipient
(services.py lines 95-101): it returns the number of accepted messages, or
raises an exception. -/
inductive TransportResult
  | accepted (count : Nat)
  | raised
deriving DecidableEq, Repr

/-- One MailingLog row as created by send_mailing (models.py class MailingLog;
only the fields send_mailing writes). -/
structure MailingLogRow where
  recipient : String
  status : String
  detail : String
  triggered_by : Option String
deriving DecidableEq, Repr

/-- Statuses of an aggregated attempt, models.py AttemptStatus. -/
inductive AttemptStatus
  | SUCCESS
  | FAIL
deriving DecidableEq, Repr

/-- One MailingAttempt row as created by send_mailing. -/
structure AttemptRow where
  status : AttemptStatus
  server_response : String
  triggered_by : Option String
deriving DecidableEq, Repr

/-- Database writes performed by one send_mailing run, in program order. -/
inductive DbEvent
  | createAttempt (row : AttemptRow)
  | updateAttempt (status : AttemptStatus) (server_response : String)
  | createLog (row : MailingLogRow)
deriving DecidableEq, Repr

/-- SendResult dataclass, services.py lines 18-23. -/
structure SendResult where
  total : Nat
  sent : Nat
  skipped : Nat
deriving DecidableEq, Repr

/-- Helper iter_emails, services.py lines 26-32 (source name starts with an
underscore): the (email, name) pairs of the recipients whose email is truthy,
i.e. non-empty, in recipient-set iteration order. -/
def iter_emails (m : Mailing) : List (String × String) :=
  m.recipients.filterMap fun r =>
    if r.email ≠ "" then some (r.email, r.name) else none

/-- Initiator recorded on log and attempt rows (services.py lines 60-62 and
the expression initiator or None): the email of the acting user when present
and non-empty, otherwise null.  The user argument is modelled by its email. -/
def initiator_opt (user : Option String) : Option String :=
  let initiator := match user with | some e => e | none => ""
  if initiator = "" then none else some initiator

/-- Mutable state of the per-recipient loop of send_mailing: the two
counters, the database rows written so far, and the addresses for which the
transport was actually invoked. -/
structure LoopState where
  sent : Nat
  skipped : Nat
  events : List DbEvent
  transport_calls : List String
deriving DecidableEq, Repr

/-- Body of the per-recipient loop of send_mailing (services.py lines 79-132)
for one recipient pair (email, name).  A dry run writes a DRY_RUN row and
counts skipped without touching the transport; otherwise send_mail is
called: a positive count is a SENT row, a zero count an ERROR row, and a
raised exception is caught here, written as an ERROR row and counted in
skipped — the loop then continues. -/
def processRecipient (transport : String → TransportResult)
    (triggered_by : Option String) (dry_run : Bool)
    (st : LoopState) (er : String × String) : LoopState :=
  if dry_run then
    { st with
      skipped := st.skipped + 1
      events := st.events ++
        [DbEvent.createLog ⟨er.1, "DRY_RUN", "Письмо не отправлялось (dry-run).", triggered_by⟩] }
  else
    match transport er.1 with
    | TransportResult.accepted n =>
        if n > 0 then
          { st with
            sent := st.sent + 1
            events := st.events ++
              [DbEvent.createLog ⟨er.1, "SENT", "Отправлено стандартным SMTP backend.", triggered_by⟩]
            transport_calls := st.transport_calls ++ [er.1] }
        else
          { st with
            skipped := st.skipped + 1
            events := st.events ++
              [DbEvent.createLog ⟨er.1, "ERROR", "send_mail вернул 0.", triggered_by⟩]
            transport_calls := st.transport_calls ++ [er.1] }
    | TransportResult.raised =>
        { st with
          skipped := st.skipped + 1
          events := st.events ++
            [DbEvent.createLog ⟨er.1, "ERROR", "Exception during send (см. серверный лог).", triggered_by⟩]
          transport_calls := st.transport_calls ++ [er.1] }

/-- Everything a send_mailing call produces: the returned SendResult, the
database writes in order, the mailing object after the call (reflecting a
possible last_sent_at stamp and status refresh), and the transport calls. -/
structure SendOutcome where
  result : SendResult
  events : List DbEvent
  mailing : Mailing
  transport_calls : List String
deriving DecidableEq, Repr

/-- send_mailing, services.py lines 35-159 (the happy path of the outer
try: database writes themselves are assumed not to fail, so the fatal
except-branch at lines 161-170 is unreachable in the model).  Resolves the
recipient list, creates the attempt row with status FAIL and response
attempt started, runs the per-recipient loop, then finalizes the attempt
row: SUCCESS for a dry run; for a real run SUCCESS with a last_sent_at
stamp and a status refresh when sent is positive, FAIL otherwise. -/
def send_mailing (now : Int) (transport : String → TransportResult)
    (m : Mailing) (user : Option String) (dry_run : Bool) : SendOutcome :=
  let recipient_emails := iter_emails m
  let total := recipient_emails.length
  let triggered_by := initiator_opt user
  let attempt0 : AttemptRow := ⟨AttemptStatus.FAIL, "attempt started", triggered_by⟩
  let st := recipient_emails.foldl
    (processRecipient transport triggered_by dry_run) ⟨0, 0, [], []⟩
  if dry_run then
    { result := ⟨total, st.sent, st.skipped⟩
      events := DbEvent.createAttempt attempt0 :: st.events ++
        [DbEvent.updateAttempt AttemptStatus.SUCCESS
          ("dry-run; total=" ++ toString total ++ "; skipped=" ++ toString st.skipped)]
      mailing := m
      transport_calls := st.transport_calls }
  else if st.sent > 0 then
    { result := ⟨total, st.sent, st.skipped⟩
      events := DbEvent.createAttempt attempt0 :: st.events ++
        [DbEvent.updateAttempt AttemptStatus.SUCCESS
          ("sent=" ++ toString st.sent ++ "; skipped=" ++ toString st.skipped)]
      mailing := Mailing.refresh_status now { m with last_sent_at := some now }
      transport_calls := st.transport_calls }
  else
    { result := ⟨total, st.sent, st.skipped⟩
      events := DbEvent.createAttempt attempt0 :: st.events ++
        [DbEvent.updateAttempt AttemptStatus.FAIL
          ("no real sends; skipped=" ++ toString st.skipped)]
      mailing := m
      transport_calls := st.transport_calls }

/-- The MailingLog rows among a list of database events, in write order. -/
def logRows (evs : List DbEvent) : List MailingLogRow :=
  evs.filterMap fun e =>
    match e with
    | DbEvent.createLog r => some r
    | _ => none

/-- Characterization of the log row the loop body writes for one recipient:
one row per recipient, whose status follows the branch taken. -/
def expectedLog (transport : String → TransportResult) (triggered_by : Option String)
    (dry_run : Bool) (er : String × String) : MailingLogRow :=
  if dry_run then
    ⟨er.1, "DRY_RUN", "Письмо не отправлялось (dry-run).", triggered_by⟩
  else
    match transport er.1 with
    | TransportResult.accepted n =>
        if n > 0 then
          ⟨er.1, "SENT", "Отправлено стандартным SMTP backend.", triggered_by⟩
        else
          ⟨er.1, "ERROR", "send_mail вернул 0.", triggered_by⟩
    | TransportResult.raised =>
        ⟨er.1, "ERROR", "Exception during send (см. серверный лог).", triggered_by⟩

/-- Whether the loop body counts a recipient in sent (true) or in skipped
(false): only a real run whose transport call accepts a positive number of
messages counts as sent. -/
def sentFlag (transport : String → TransportResult) (dry_run : Bool)
    (email : String) : Bool :=
  if dry_run then false
  else
    match transport email with
    | TransportResult.accepted n => decide (n > 0)
    | TransportResult.raised => false

theorem processRecipient_spec (t : String → TransportResult) (tb : Option String)
    (d : Bool) (st : LoopState) (er : String × String) :
    processRecipient t tb d st er =
      { sent := st.sent + (if sentFlag t d er.1 then 1 else 0)
        skipped := st.skipped + (if sentFlag t d er.1 then 0 else 1)
        events := st.events ++ [DbEvent.createLog (expectedLog t tb d er)]
        transport_calls := st.transport_calls ++ (if d then [] else [er.1]) } := by
  unfold processRecipient expectedLog sentFlag
  cases d with
  | true => simp
  | false =>
    cases h : t er.1 with
    | accepted n =>
      by_cases hn : n > 0 <;> simp [hn]
    | raised => simp

theorem foldl_processRecipient (t : String → TransportResult) (tb : Option String)
    (d : Bool) (l : List (String × String)) (st : LoopState) :
    l.foldl (processRecipient t tb d) st =
      { sent := st.sent + (l.countP fun er => sentFlag t d er.1)
        skipped := st.skipped + (l.countP fun er => !(sentFlag t d er.1))
        events := st.events ++ l.map (fun er => DbEvent.createLog (expectedLog t tb d er))
        transport_calls := st.transport_calls ++
          (if d then [] else l.map Prod.fst) } := by
  induction l generalizing st with
  | nil => cases d <;> simp
  | cons er l ih =>
    rw [List.foldl_cons, processRecipient_spec, ih]
    cases hf : sentFlag t d er.1 <;> cases d <;>
      simp [LoopState.mk.injEq, List.countP_cons, hf, List.append_assoc] <;>
        omega

/-- Final status written to the attempt row (services.py lines 134-148):
SUCCESS for a dry run, SUCCESS for a real run with at least one send,
FAIL for a real run with none. -/
def final_attempt_status (dry_run : Bool) (sent : Nat) : AttemptStatus :=
  if dry_run then AttemptStatus.SUCCESS
  else if sent > 0 then AttemptStatus.SUCCESS
  else AttemptStatus.FAIL

/-- Final server_response written to the attempt row. -/
def final_attempt_response (dry_run : Bool) (total sent skipped : Nat) : String :=
  if dry_run then "dry-run; total=" ++ toString total ++ "; skipped=" ++ toString skipped
  else if sent > 0 then "sent=" ++ toString sent ++ "; skipped=" ++ toString skipped
  else "no real sends; skipped=" ++ toString skipped

theorem countP_flag_add_not (l : List (String × String)) (p : String × String → Bool) :
    l.countP p + l.countP (fun a => !(p a)) = l.length := by
  induction l with
  | nil => simp
  | cons a l ih =>
    cases h : p a <;> simp [List.countP_cons, h] <;> omega

/-- Master characterization of send_mailing: the run is fully determined by
the resolved recipient list, the transport outcomes and the flags. -/
theorem send_mailing_def (now : Int) (t : String → TransportResult)
    (m : Mailing) (user : Option String) (d : Bool) :
    send_mailing now t m user d =
      { result := ⟨(iter_emails m).length,
          (iter_emails m).countP fun er => sentFlag t d er.1,
          (iter_emails m).countP fun er => !(sentFlag t d er.1)⟩
        events := DbEvent.createAttempt
            ⟨AttemptStatus.FAIL, "attempt started", initiator_opt user⟩ ::
          ((iter_emails m).map fun er =>
            DbEvent.createLog (expectedLog t (initiator_opt user) d er)) ++
          [DbEvent.updateAttempt
            (final_attempt_status d ((iter_emails m).countP fun er => sentFlag t d er.1))
            (final_attempt_response d (iter_emails m).length
              ((iter_emails m).countP fun er => sentFlag t d er.1)
              ((iter_emails m).countP fun er => !(sentFlag t d er.1)))]
        mailing :=
          if d = false ∧ 0 < ((iter_emails m).countP fun er => sentFlag t d er.1) then
            Mailing.refresh_status now { m with last_sent_at := some now }
          else m
        transport_calls := if d then [] else (iter_emails m).map Prod.fst } := by
  cases d with
  | true =>
    simp [send_mailing, foldl_processRecipient, final_attempt_status,
      final_attempt_response]
  | false =>
    by_cases hs : 0 < ((iter_emails m).countP fun er => sentFlag t false er.1)
    · simp [send_mailing, foldl_processRecipient, final_attempt_status,
        final_attempt_response, hs]
    · simp [send_mailing, foldl_processRecipient, final_attempt_status,
        final_attempt_response, hs]

theorem logRows_events (a : AttemptRow) (s : AttemptStatus) (r : String)
    (l : List (String × String)) (f : String × String → MailingLogRow) :
    logRows (DbEvent.createAttempt a :: (l.map fun er => DbEvent.createLog (f er)) ++
      [DbEvent.updateAttempt s r]) = l.map f := by
  induction l with
  | nil => rfl
  | cons er l ih => exact congrArg (List.cons (f er)) ih

theorem mem_zip_map_self {α β : Type} (f : α → β) (l : List α) (p : α × β)
    (hp : p ∈ l.zip (l.map f)) : p.2 = f p.1 := by
  induction l with
  | nil => cases hp
  | cons a l ih =>
    rw [List.map_cons, List.zip_cons_cons] at hp
    rcases List.mem_cons.mp hp with h | h
    · rw [h]
    · exact ih h

/-- C10: the SendResult returned by send_mailing always satisfies
total = sent + skipped, and total is the number of recipients with a
non-empty email resolved at call time. -/
theorem send_result_partition (now : Int) (t : String → TransportResult)
    (m : Mailing) (user : Option String) (d : Bool) :
    (send_mailing now t m user d).result.total =
      (send_mailing now t m user d).result.sent +
        (send_mailing now t m user d).result.skipped ∧
    (send_mailing now t m user d).result.total = (iter_emails m).length := by
  rw [send_mailing_def]
  exact ⟨(countP_flag_add_not _ _).symm, rfl⟩

/-- C3: a dry run returns sent = 0, skipped = N, total = N for the N
recipients with a non-empty email, writes exactly N log rows all with
status DRY_RUN, never calls the transport, and leaves the mailing
(in particular last_sent_at) unchanged. -/
theorem dry_run_never_sends (now : Int) (t : String → TransportResult)
    (m : Mailing) (user : Option String) :
    (send_mailing now t m user true).result.sent = 0 ∧
    (send_mailing now t m user true).result.skipped = (iter_emails m).length ∧
    (send_mailing now t m user true).result.total = (iter_emails m).length ∧
    logRows (send_mailing now t m user true).events =
      ((iter_emails m).map fun er =>
        ⟨er.1, "DRY_RUN", "Письмо не отправлялось (dry-run).", initiator_opt user⟩) ∧
    (send_mailing now t m user true).transport_calls = [] ∧
    (send_mailing now t m user true).mailing = m := by
  rw [send_mailing_def]
  refine ⟨?_, ?_, rfl, ?_, rfl, ?_⟩
  · simp [sentFlag]
  · simp [sentFlag]
  · rw [logRows_events]
    simp [expectedLog]
  · simp

/-- C2: in a real (non-dry-run) send, a transport exception for one
recipient is absorbed inside the loop: every resolved recipient gets
exactly one log row, in order (total rows = total recipients), a recipient
whose transport call raised gets an ERROR row, the skipped counter counts
every non-delivered recipient, and the loop reaches each remaining
recipient (each has its own row); the call returns normally with
total = number of resolved recipients. -/
theorem partial_failure_isolation (now : Int) (t : String → TransportResult)
    (m : Mailing) (user : Option String) :
    (send_mailing now t m user false).result.total = (iter_emails m).length ∧
    (logRows (send_mailing now t m user false).events).length =
      (send_mailing now t m user false).result.total ∧
    (∀ p ∈ (iter_emails m).zip (logRows (send_mailing now t m user false).events),
      t p.1.1 = TransportResult.raised →
        p.2 = ⟨p.1.1, "ERROR", "Exception during send (см. серверный лог).",
          initiator_opt user⟩) ∧
    (send_mailing now t m user false).result.skipped =
      ((iter_emails m).countP fun er => !(sentFlag t false er.1)) := by
  rw [send_mailing_def]
  refine ⟨rfl, ?_, ?_, rfl⟩
  · rw [logRows_events]
    simp
  · intro p hp hraised
    rw [logRows_events] at hp
    rw [mem_zip_map_self _ _ _ hp]
    simp [expectedLog, hraised]

/-- Example transport for witnesses: raises for the second of three
recipients, accepts one message for any other address. -/
def exTransport2 : String → TransportResult := fun e =>
  if e = "b@x.com" then TransportResult.raised else TransportResult.accepted 1

/-- Example mailing with three recipients for the C2 witness. -/
def exMailing3 : Mailing :=
  { start_at := 0, end_at := 100, status := MailingStatus.CREATED,
    last_sent_at := none,
    recipients := [⟨"a@x.com", "A"⟩, ⟨"b@x.com", "B"⟩, ⟨"c@x.com", "C"⟩] }

theorem partial_failure_isolation_witness :
    (send_mailing 0 exTransport2 exMailing3 none false).result.total = 3 ∧
    (logRows (send_mailing 0 exTransport2 exMailing3 none false).events).length = 3 := by
  obtain ⟨h1, h2, h3, h4⟩ := partial_failure_isolation 0 exTransport2 exMailing3 none
  refine ⟨?_, ?_⟩
  · rw [h1]; rfl
  · rw [h2, h1]; rfl

/-- C4: every send_mailing run writes the attempt row first, with status
FAIL and response text attempt started, then between it only per-recipient
log rows, and finally exactly one update of the attempt row, whose status
is SUCCESS for a dry run or a real run with sent positive and FAIL for a
real run with sent = 0, in which case the response notes that no real
sends occurred. -/
theorem attempt_lifecycle (now : Int) (t : String → TransportResult)
    (m : Mailing) (user : Option String) (d : Bool) :
    ∃ mid resp,
      (∀ e ∈ mid, ∃ r, e = DbEvent.createLog r) ∧
      (send_mailing now t m user d).events =
        DbEvent.createAttempt ⟨AttemptStatus.FAIL, "attempt started", initiator_opt user⟩ ::
          mid ++ [DbEvent.updateAttempt
            (if d = true ∨ 0 < (send_mailing now t m user d).result.sent
             then AttemptStatus.SUCCESS else AttemptStatus.FAIL) resp] ∧
      (d = false → (send_mailing now t m user d).result.sent = 0 →
        resp = "no real sends; skipped=" ++
          toString (send_mailing now t m user d).result.skipped) := by
  rw [send_mailing_def]
  refine ⟨(iter_emails m).map fun er =>
      DbEvent.createLog (expectedLog t (initiator_opt user) d er),
    final_attempt_response d (iter_emails m).length
      ((iter_emails m).countP fun er => sentFlag t d er.1)
      ((iter_emails m).countP fun er => !(sentFlag t d er.1)), ?_, ?_, ?_⟩
  · intro e he
    rw [List.mem_map] at he
    obtain ⟨er, _, rfl⟩ := he
    exact ⟨_, rfl⟩
  · have hst : ∀ (b : Bool) (n : Nat), final_attempt_status b n =
        (if b = true ∨ 0 < n then AttemptStatus.SUCCESS else AttemptStatus.FAIL) := by
      intro b n
      cases b <;> by_cases h : 0 < n <;> simp [final_attempt_status, h]
    rw [hst]
  · intro hd hsent
    subst hd
    simp only at hsent
    simp [final_attempt_response, hsent]

theorem attempt_lifecycle_witness :
    (send_mailing 0 exTransport2 exMailing3 none false).events.head? =
      some (DbEvent.createAttempt ⟨AttemptStatus.FAIL, "attempt started", none⟩) := by
  obtain ⟨mid, resp, hmid, hev, hresp⟩ :=
    attempt_lifecycle 0 exTransport2 exMailing3 none false
  rw [hev]
  rfl

/-- Example mailing with one recipient and an open window for the C5
witness. -/
def exMailing1 : Mailing :=
  { start_at := 0, end_at := 100, status := MailingStatus.CREATED,
    last_sent_at := none,
    recipients := [⟨"a@x.com", "A"⟩] }

/-- Example transport accepting one message for every address. -/
def exTransportOk : String → TransportResult := fun _ => TransportResult.accepted 1

/-- C5: for a mailing never sent before whose window is open at the call
time, a real send with at least one delivered recipient stamps
last_sent_at with the call time and refreshes the status, which is
RUNNING. -/
theorem first_send_stamps (now : Int) (t : String → TransportResult)
    (m : Mailing) (user : Option String)
    (h0 : m.last_sent_at = none)
    (h1 : m.start_at ≤ now) (h2 : now < m.end_at)
    (h3 : 0 < (send_mailing now t m user false).result.sent) :
    (send_mailing now t m user false).mailing.last_sent_at = some now ∧
    (send_mailing now t m user false).mailing.status = MailingStatus.RUNNING := by
  rw [send_mailing_def] at h3 ⊢
  simp only at h3
  have hc : (false = false ∧
      0 < ((iter_emails m).countP fun er => sentFlag t false er.1)) := ⟨rfl, h3⟩
  rw [if_pos hc]
  unfold Mailing.refresh_status Mailing.compute_status Mailing.is_sent_at_least_once
  have hne : ¬ now ≥ m.end_at := not_le.mpr h2
  refine ⟨rfl, ?_⟩
  simp [hne]

theorem first_send_stamps_witness :
    (send_mailing 10 exTransportOk exMailing1 none false).mailing.last_sent_at = some 10 ∧
    (send_mailing 10 exTransportOk exMailing1 none false).mailing.status =
      MailingStatus.RUNNING := by
  refine first_send_stamps 10 exTransportOk exMailing1 none rfl (by decide) (by decide) ?_
  rw [send_mailing_def]
  decide

/-! Due-mailing scheduler, src/mailings/tasks.py.  The integer timeline is
taken in minutes here, so the cutoff now - timedelta(minutes=min_repeat)
is now - min_repeat. -/

/-- Filter built at tasks.py lines 37-45: window currently open
(start_at <= now <= end_at) and status CREATED or RUNNING.  This part of
the queryset is constructed without error. -/
def due_window_filter (now : Int) (db : List Mailing) : List Mailing :=
  db.filter fun m =>
    decide (m.start_at ≤ now) && decide (now ≤ m.end_at) &&
      (decide (m.status = MailingStatus.CREATED) ||
        decide (m.status = MailingStatus.RUNNING))

/-- The anti-flood filter expression written at tasks.py lines 48-53:
last_sent_at is null, or last_sent_at <= cutoff.  In the source this
expression never evaluates, because the name Q it uses is not imported in
tasks.py; the definition here records what the expression says. -/
def cooldown_filter (cutoff : Int) (m : Mailing) : Bool :=
  match m.last_sent_at with
  | none => true
  | some ts => decide (ts ≤ cutoff)

/-- due_mailings_queryset, tasks.py lines 27-55.  Lines 33-45 evaluate
normally (the cutoff and the window/status filter), but line 50 applies
the name Q, which tasks.py never imports, so every call raises NameError
before the cooldown filter can be attached; no mailing list is ever
returned. -/
def due_mailings_queryset (now min_repeat : Int) (db : List Mailing) :
    Except String (List Mailing) :=
  let _qs := due_window_filter now db
  Except.error "NameError: name Q is not defined"

/-- Everything one scheduler tick produces: the return value or the
exception it raises, the final state of the lock key, whether the due scan
was invoked, and the mailings handed to the dispatch engine. -/
structure TickOutcome where
  result : Except String Nat
  lock_held : Bool
  scanned : Bool
  dispatched : List Mailing
deriving Repr

/-- acquire_lock, tasks.py lines 18-20: cache.add returns true iff the
key was absent; the key is present afterwards either way.  Returns
(acquired, key present afterwards). -/
def acquire_lock (lock_held : Bool) : Bool × Bool :=
  if lock_held then (false, true) else (true, true)

/-- run_due_mailings, tasks.py lines 58-77.  If the lock is not acquired
the tick returns 0 at once, without scanning.  Otherwise the body runs
under try/finally with release_lock in the finally block: the call of
due_mailings_queryset raises NameError (unbound Q), the lock is released,
and the exception propagates.  The ok branch is unreachable but models
the loop as written: with no due mailing the tick would return 0, and
with at least one the first call of send_mailing would raise TypeError,
because tasks.py line 71 passes a keyword argument triggered_by that
send_mailing (services.py line 35) does not accept. -/
def run_due_mailings (now min_repeat : Int) (db : List Mailing)
    (lock_held : Bool) : TickOutcome :=
  if (acquire_lock lock_held).1 = false then
    { result := Except.ok 0, lock_held := lock_held, scanned := false,
      dispatched := [] }
  else
    match due_mailings_queryset now min_repeat db with
    | Except.error e =>
        { result := Except.error e, lock_held := false, scanned := true,
          dispatched := [] }
    | Except.ok ms =>
        match ms with
        | [] =>
            { result := Except.ok 0, lock_held := false, scanned := true,
              dispatched := [] }
        | _ :: _ =>
            { result := Except.error
                "TypeError: send_mailing() got an unexpected keyword argument triggered_by",
              lock_held := false, scanned := true, dispatched := [] }

/-- C6 (failing behaviour of the code): due_mailings_queryset never
returns the due set — every call, whatever the poll time, cooldown
setting and stored mailings, raises NameError because tasks.py uses Q
without importing it, so no mailing is ever selected as due. -/
theorem due_mailings_queryset_raises (now min_repeat : Int) (db : List Mailing) :
    due_mailings_queryset now min_repeat db =
      Except.error "NameError: name Q is not defined" := rfl

/-- Companion fact (not a claim): the filter the source builds plus the
filter expression it fails to attach, composed, select exactly the
mailings the claim describes — the intended predicate is the claimed one. -/
theorem due_filters_intended (now min_repeat : Int) (db : List Mailing) (m : Mailing) :
    m ∈ (due_window_filter now db).filter (cooldown_filter (now - min_repeat)) ↔
      m ∈ db ∧ (m.start_at ≤ now ∧ now ≤ m.end_at) ∧
        (m.status = MailingStatus.CREATED ∨ m.status = MailingStatus.RUNNING) ∧
        (m.last_sent_at = none ∨
          ∃ ts, m.last_sent_at = some ts ∧ ts ≤ now - min_repeat) := by
  unfold due_window_filter cooldown_filter
  rw [List.mem_filter, List.mem_filter]
  cases h : m.last_sent_at <;> simp [h] <;> tauto

/-- C7 (failing behaviour of the code): a tick that acquires the lock
never hands any mailing to the dispatch engine and never returns a
processed count — the scan raises NameError first (and the dispatch call
itself would raise TypeError for the unexpected keyword argument
triggered_by). -/
theorem run_due_mailings_never_dispatches (now min_repeat : Int) (db : List Mailing) :
    (run_due_mailings now min_repeat db false).dispatched = [] ∧
    (run_due_mailings now min_repeat db false).result =
      Except.error "NameError: name Q is not defined" := by
  exact ⟨rfl, rfl⟩

/-- C8: when the lock is already held, the tick returns 0 at once —
no scan, no dispatch, no error, lock state untouched; when the lock is
acquired, it is released by the end of the tick even though the body
raises. -/
theorem lock_contention_and_release (now min_repeat : Int) (db : List Mailing)
    (lock_held : Bool) :
    (lock_held = true →
      run_due_mailings now min_repeat db lock_held =
        { result := Except.ok 0, lock_held := lock_held, scanned := false,
          dispatched := [] }) ∧
    (lock_held = false →
      (run_due_mailings now min_repeat db lock_held).lock_held = false) := by
  constructor
  · intro h; subst h; rfl
  · intro h; subst h; rfl

theorem lock_contention_and_release_witness :
    run_due_mailings 0 5 [] true =
      { result := Except.ok 0, lock_held := true, scanned := false,
        dispatched := [] } ∧
    (run_due_mailings 0 5 [] false).lock_held = false := by
  exact ⟨(lock_contention_and_release 0 5 [] true).1 rfl,
    (lock_contention_and_release 0 5 [] false).2 rfl⟩

/-! Window validation, src/mailings/models.py Mailing.clean/save and
src/mailings/forms.py MailingForm.clean. -/

/-- Mailing.clean (models.py lines 170-174): the field errors it raises —
an error on the end_at field when end_at <= start_at (the truthiness
guards are vacuous for populated datetime fields). -/
def mailing_clean_errors (m : Mailing) : List (String × String) :=
  if m.end_at ≤ m.start_at then
    [("end_at", "Окончание должно быть позже начала.")]
  else []

/-- Mailing.save (models.py lines 195-199): full_clean, which raises the
errors of Mailing.clean, then status synchronization and the actual save. -/
def mailing_save (now : Int) (m : Mailing) : Except (List (String × String)) Mailing :=
  match mailing_clean_errors m with
  | [] => Except.ok { m with status := m.compute_status now }
  | e :: rest => Except.error (e :: rest)

/-- Names of the fields carrying a validation error in a save outcome. -/
def save_error_fields (r : Except (List (String × String)) Mailing) : List String :=
  match r with
  | Except.error errs => errs.map Prod.fst
  | Except.ok _ => []

/-- MailingForm.clean (forms.py lines 45-68), the form behind the create
and update views: the field errors added for the window, as a list of
(field, message) pairs — end_at must be after start_at, and end_at must
not be at or before the current time. -/
def mailing_form_clean_errors (now start_at end_at : Int) : List (String × String) :=
  (if end_at ≤ start_at then
    [("end_at", "Окончание должно быть позже начала.")]
   else []) ++
  (if end_at ≤ now then
    [("end_at", "Окончание уже прошло — рассылка не может быть создана в прошлом.")]
   else [])

/-- C9: every full save path of a Mailing rejects end_at <= start_at with
a validation error naming end_at, and the form through which a mailing is
created rejects an end_at at or before the current time with an error on
end_at as well. -/
theorem window_validation (now : Int) (m : Mailing) (s e : Int) :
    (m.end_at ≤ m.start_at → "end_at" ∈ save_error_fields (mailing_save now m)) ∧
    (e ≤ now → "end_at" ∈ (mailing_form_clean_errors now s e).map Prod.fst) := by
  constructor
  · intro h
    have hc : mailing_clean_errors m =
        [("end_at", "Окончание должно быть позже начала.")] := by
      unfold mailing_clean_errors
      rw [if_pos h]
    unfold mailing_save
    rw [hc]
    simp [save_error_fields]
  · intro h
    unfold mailing_form_clean_errors
    rw [if_pos h]
    simp

/-- Example mailing whose window ends before it starts, for the C9
witness. -/
def exMailingBad : Mailing :=
  { start_at := 50, end_at := 20, status := MailingStatus.CREATED,
    last_sent_at := none, recipients := [] }

theorem window_validation_witness :
    "end_at" ∈ save_error_fields (mailing_save 0 exMailingBad) ∧
    "end_at" ∈ (mailing_form_clean_errors 100 0 60).map Prod.fst := by
  exact ⟨(window_validation 0 exMailingBad 0 60).1 (by decide),
    (window_validation 100 exMailingBad 0 60).2 (by decide)⟩

end MessageAutoSend
